import Mathlib

/-!
Shallow embedding of `simbotix_otel/app.py` (Simbotix/simbotix_otel).

The module provides per-site OpenTelemetry pipelines for a Frappe WSGI app:
  * `parse_headers`            — comma-separated `key=value` header parsing,
  * `get_site_from_host`       — tenant key extraction from the host header,
  * `get_config`               — memoized environment configuration,
  * `get_tracer_provider_for_site` — per-site provider cache,
  * `SiteAwareOTelMiddleware`  — request dispatch wrapper.

Python strings are modelled as Lean `String` (operating on `String.data`
character lists); Python dicts as insertion-ordered association lists with
replace-on-existing-key assignment; module-level mutable globals as an explicit
state record threaded through the functions; Python object identity of
constructed provider objects as a fresh allocation counter.
-/

namespace SimbotixOtel

/-- Python `s.split(sep)` for a one-character separator, split at every
occurrence: first component and remaining components of the split. -/
def splitChar1 (c : Char) : List Char → List Char × List (List Char)
  | [] => ([], [])
  | x :: xs =>
    if x = c then ([], (splitChar1 c xs).1 :: (splitChar1 c xs).2)
    else (x :: (splitChar1 c xs).1, (splitChar1 c xs).2)

/-- Python `s.split(sep)` for a one-character separator (always nonempty,
like Python's: `"".split(",") == [""]`). -/
def splitChar (c : Char) (l : List Char) : List (List Char) :=
  (splitChar1 c l).1 :: (splitChar1 c l).2

/-- Python `s.split(sep, 1)` for a one-character separator: the part before
the first occurrence, and `some` part after it (or `none` when absent). -/
def splitFirst (c : Char) : List Char → List Char × Option (List Char)
  | [] => ([], none)
  | x :: xs =>
    if x = c then ([], some xs)
    else (x :: (splitFirst c xs).1, (splitFirst c xs).2)

/-- The whitespace characters Python's `str.strip()` removes (the ASCII
subset; the repository only ever strips ASCII header text). -/
def isPySpace (c : Char) : Bool :=
  c = ' ' || c = '\t' || c = '\n' || c = '\x0d' || c = '\x0b' || c = '\x0c'

/-- Python `s.strip()`: remove leading and trailing whitespace. -/
def pyStrip (l : List Char) : List Char :=
  ((l.dropWhile isPySpace).reverse.dropWhile isPySpace).reverse

/-- Python dict assignment `d[k] = v`: replaces the value at an existing key
in place, otherwise appends the new entry (insertion order preserved). -/
def dictInsert {β : Type} (k : String) (v : β) : List (String × β) → List (String × β)
  | [] => [(k, v)]
  | (k', v') :: rest =>
    if k' = k then (k, v) :: rest else (k', v') :: dictInsert k v rest

/-- Python `k in d` / `d[k]` on a dict: lookup by key. -/
def lookupKey {β : Type} (k : String) : List (String × β) → Option β
  | [] => none
  | (k', v) :: rest => if k' = k then some v else lookupKey k rest

/-- One iteration of the `for item in headers_str.split(","):` loop body of
`parse_headers`: if `"=" in item`, split on the first `=` and store the
stripped key/value pair, else skip the item. -/
def addHeaderItem (d : List (String × String)) (item : List Char) :
    List (String × String) :=
  match (splitFirst '=' item).2 with
  | some v =>
    dictInsert (pyStrip (splitFirst '=' item).1).asString (pyStrip v).asString d
  | none => d

/-- `parse_headers`: parse OTEL headers from a comma-separated `key=value`
string (`app.py` lines 51-60). -/
def parse_headers (s : String) : List (String × String) :=
  if s = "" then []
  else (splitChar ',' s.data).foldl addHeaderItem []

/-- `get_site_from_host`: extract the site name from the host header
(`app.py` lines 80-86); `none` models a missing header. -/
def get_site_from_host (host : Option String) : String :=
  match host with
  | none => "unknown"
  | some h => if h = "" then "unknown" else ((splitChar ':' h.data).headD []).asString

/-! ### Lemmas about the string helpers -/

theorem splitChar1_fst (c : Char) (l : List Char) :
    (splitChar1 c l).1 = l.takeWhile (fun x => x != c) := by
  induction l with
  | nil => rfl
  | cons x xs ih =>
    by_cases h : x = c <;> simp [splitChar1, h, List.takeWhile_cons, ih]

theorem splitChar_not_mem (c : Char) (l : List Char) (h : c ∉ l) :
    splitChar c l = [l] := by
  induction l with
  | nil => rfl
  | cons x xs ih =>
    simp only [List.mem_cons, not_or] at h
    have hx : x ≠ c := fun hxc => h.1 hxc.symm
    have := ih h.2
    simp only [splitChar, splitChar1, if_neg hx] at *
    simp_all

theorem splitFirst_not_mem (c : Char) (l : List Char) (h : c ∉ l) :
    splitFirst c l = (l, none) := by
  induction l with
  | nil => rfl
  | cons x xs ih =>
    simp only [List.mem_cons, not_or] at h
    have hx : x ≠ c := fun hxc => h.1 hxc.symm
    have := ih h.2
    simp [splitFirst, if_neg hx, this]

theorem splitFirst_mem (c : Char) (l : List Char) (h : c ∈ l) :
    ∃ v, (splitFirst c l).2 = some v := by
  induction l with
  | nil => cases h
  | cons x xs ih =>
    by_cases hx : x = c
    · exact ⟨xs, by simp [splitFirst, hx]⟩
    · have hmem : c ∈ xs := by
        rcases List.mem_cons.mp h with h1 | h2
        · exact absurd h1.symm hx
        · exact h2
      obtain ⟨v, hv⟩ := ih hmem
      exact ⟨v, by simp [splitFirst, if_neg hx, hv]⟩

theorem lookupKey_dictInsert_self {β : Type} (k : String) (v : β)
    (d : List (String × β)) : lookupKey k (dictInsert k v d) = some v := by
  induction d with
  | nil => simp [dictInsert, lookupKey]
  | cons p rest ih =>
    obtain ⟨k', v'⟩ := p
    by_cases h : k' = k <;> simp [dictInsert, lookupKey, h, ih]

theorem lookupKey_dictInsert_ne {β : Type} (k k2 : String) (v : β)
    (d : List (String × β)) (hne : k ≠ k2) :
    lookupKey k2 (dictInsert k v d) = lookupKey k2 d := by
  induction d with
  | nil => simp [dictInsert, lookupKey, hne]
  | cons p rest ih =>
    obtain ⟨k', v'⟩ := p
    by_cases h : k' = k
    · subst h; simp [dictInsert, lookupKey, hne]
    · simp [dictInsert, lookupKey, h, ih]

theorem dictInsert_of_lookup_none {β : Type} (k : String) (v : β)
    (d : List (String × β)) (h : lookupKey k d = none) :
    dictInsert k v d = d ++ [(k, v)] := by
  induction d with
  | nil => rfl
  | cons p rest ih =>
    obtain ⟨k', v'⟩ := p
    by_cases hk : k' = k
    · simp [lookupKey, hk] at h
    · simp only [lookupKey, if_neg hk] at h
      simp [dictInsert, hk, ih h]

theorem lookupKey_eq_none_iff {β : Type} (k : String) (d : List (String × β)) :
    lookupKey k d = none ↔ k ∉ d.map Prod.fst := by
  induction d with
  | nil => simp [lookupKey]
  | cons p rest ih =>
    obtain ⟨k', v'⟩ := p
    by_cases hk : k' = k
    · subst hk; simp [lookupKey]
    · have hk2 : k ≠ k' := fun h2 => hk h2.symm
      simp [lookupKey, hk, hk2, ih]

/-! ### Configuration and the provider cache state -/

/-- The process environment, as read by `app.py` (`os.environ.get` for the
five OTEL variables plus `HOSTNAME`, and `os.uname().nodename`). -/
structure Env where
  otlp_endpoint : Option String
  otlp_headers : Option String
  otel_service_name : Option String
  otel_service_version : Option String
  otel_deployment_environment : Option String
  hostname : Option String
  uname_nodename : String
deriving DecidableEq, Repr

/-- The dict returned by `get_otel_config` (`app.py` lines 41-49). -/
structure Config where
  endpoint : String
  headers : String
  service_name : String
  service_version : String
  environment : String
deriving DecidableEq, Repr

/-- `get_otel_config`: read OpenTelemetry configuration from environment
variables with fixed defaults. -/
def get_otel_config (e : Env) : Config where
  endpoint := e.otlp_endpoint.getD "https://otel.appz.studio"
  headers := e.otlp_headers.getD ""
  service_name := e.otel_service_name.getD "frappe"
  service_version := e.otel_service_version.getD "15.91.0"
  environment := e.otel_deployment_environment.getD "production"

/-- The resource labels created by `Resource.create` in
`get_tracer_provider_for_site` (`app.py` lines 99-106). -/
structure Resource where
  service_name : String
  service_version : String
  deployment_environment : String
  host_name : String
  frappe_site : String
  service_type : String
deriving DecidableEq, Repr

/-- The `OTLPSpanExporter` arguments (`app.py` lines 109-112). -/
structure SpanExporter where
  endpoint : String
  headers : List (String × String)
deriving DecidableEq, Repr

/-- One `TracerProvider` pipeline handle. `id` models Python object identity:
every construction allocates a fresh one. -/
structure TracerProvider where
  id : Nat
  resource : Resource
  exporter : SpanExporter
deriving DecidableEq, Repr

/-- The module-level mutable globals of `app.py` that the tracer path touches
(`_config`, `_headers`, `_tracer_providers`), the read-only process
environment, a counter of `get_otel_config` invocations (configuration-source
reads), and the allocation counter for provider object identities. -/
structure OtelState where
  env : Env
  config : Option Config
  headers : Option (List (String × String))
  envReads : Nat
  tracer_providers : List (String × TracerProvider)
  nextId : Nat
deriving DecidableEq, Repr

/-- `get_config` (`app.py` lines 72-77): populate `_config`/`_headers` from
the environment on first call, then return the cached pair. -/
def get_config (st : OtelState) : (Config × List (String × String)) × OtelState :=
  match st.config with
  | some c => ((c, st.headers.getD []), st)
  | none =>
    let c := get_otel_config st.env
    let h := parse_headers c.headers
    ((c, h), { st with config := some c, headers := some h, envReads := st.envReads + 1 })

/-- The resource created for a site (`Resource.create` call in
`get_tracer_provider_for_site`, `app.py` lines 99-106). -/
def siteResource (site_name : String) (config : Config) (e : Env) : Resource where
  service_name := site_name
  service_version := config.service_version
  deployment_environment := config.environment
  host_name := e.hostname.getD e.uname_nodename
  frappe_site := site_name
  service_type := "frappe-web"

/-- The construction section of `get_tracer_provider_for_site` (`app.py`
lines 96-115, after the cache miss): read the config, build the resource, the
OTLP span exporter and the provider. Allocates a fresh object identity; does
not itself touch the cache. -/
def mkTracerProvider (site_name : String) (st : OtelState) :
    TracerProvider × OtelState :=
  let r := get_config st
  let tp : TracerProvider :=
    { id := r.2.nextId
      resource := siteResource site_name r.1.1 r.2.env
      exporter := { endpoint := r.1.1.endpoint ++ "/v1/traces", headers := r.1.2 } }
  (tp, { r.2 with nextId := r.2.nextId + 1 })

/-- `get_tracer_provider_for_site` (`app.py` lines 89-117): return the cached
provider for the site, or construct one, register it in `_tracer_providers`
and return it. -/
def get_tracer_provider_for_site (site_name : String) (st : OtelState) :
    TracerProvider × OtelState :=
  match lookupKey site_name st.tracer_providers with
  | some tp => (tp, st)
  | none =>
    let r := mkTracerProvider site_name st
    (r.1, { r.2 with tracer_providers := dictInsert site_name r.1 r.2.tracer_providers })

/-- A sequence of `get_tracer_provider_for_site` calls, applied left to
right to the module state. -/
def runSites (sites : List String) (st : OtelState) : OtelState :=
  sites.foldl (fun s k => (get_tracer_provider_for_site k s).2) st

/-! ### Basic state lemmas -/

theorem get_config_env (st : OtelState) : (get_config st).2.env = st.env := by
  cases h : st.config <;> simp [get_config, h]

theorem get_config_tracer_providers (st : OtelState) :
    (get_config st).2.tracer_providers = st.tracer_providers := by
  cases h : st.config <;> simp [get_config, h]

theorem get_config_nextId (st : OtelState) :
    (get_config st).2.nextId = st.nextId := by
  cases h : st.config <;> simp [get_config, h]

theorem get_config_stable (st : OtelState) :
    get_config ((get_config st).2) = ((get_config st).1, (get_config st).2) := by
  cases h : st.config <;> simp [get_config, h]

/-! ### The request dispatch wrapper (`SiteAwareOTelMiddleware`) -/

/-- The WSGI `environ` fields the wrapper touches: `HTTP_HOST` (absent or a
string) and the `OTEL_SITE_NAME` entry the wrapper adds for Frappe. -/
structure Environ where
  http_host : Option String
  otel_site_name : Option String
deriving DecidableEq, Repr

/-- One `OpenTelemetryMiddleware(self.app, tracer_provider=...)` instance
cached in `self._wsgi_middlewares`. `mwId` models Python object identity. -/
structure WsgiMW where
  mwId : Nat
  tracer_provider : TracerProvider
deriving DecidableEq, Repr

/-- The span record finalized for one request: which provider pipeline it was
emitted on, and the application failure recorded on it, if any. -/
structure SpanRecord where
  provider : TracerProvider
  errored : Option String
deriving DecidableEq, Repr

/-- Modelled from the spec: the external `OpenTelemetryMiddleware` (the
OpenTelemetry WSGI instrumentation library, not part of this repository)
begins a request span on its tracer provider, invokes the wrapped handler,
and on a handler failure records the failure on the span and re-raises it
unchanged; on success it finalizes the span without an error. Fallible
dispatch is modelled with `Except`. -/
def otelMiddlewareCall {ρ : Type} (mw : WsgiMW) (app : Environ → Except String ρ)
    (environ : Environ) : Except String ρ × SpanRecord :=
  match app environ with
  | Except.ok r => (Except.ok r, { provider := mw.tracer_provider, errored := none })
  | Except.error e => (Except.error e, { provider := mw.tracer_provider, errored := some e })

/-- The mutable state of a `SiteAwareOTelMiddleware` instance: the module
globals plus `self._wsgi_middlewares` and the allocation counter for
middleware object identities. -/
structure MWState where
  otel : OtelState
  wsgi_middlewares : List (String × WsgiMW)
  nextMwId : Nat
deriving DecidableEq, Repr

/-- `SiteAwareOTelMiddleware._get_middleware_for_site` (`app.py` lines
212-220): return the cached per-site WSGI middleware, or build one around the
site's tracer provider and cache it. -/
def get_middleware_for_site (site_name : String) (st : MWState) :
    WsgiMW × MWState :=
  match lookupKey site_name st.wsgi_middlewares with
  | some mw => (mw, st)
  | none =>
    let r := get_tracer_provider_for_site site_name st.otel
    let mw : WsgiMW := { mwId := st.nextMwId, tracer_provider := r.1 }
    (mw, { otel := r.2
           wsgi_middlewares := dictInsert site_name mw st.wsgi_middlewares
           nextMwId := st.nextMwId + 1 })

/-- `SiteAwareOTelMiddleware.__call__` (`app.py` lines 222-233): extract the
site from `HTTP_HOST` (default `""`), fetch or create the site middleware,
add `OTEL_SITE_NAME` to the environ, and dispatch through the instrumented
middleware, returning its result unchanged. -/
def siteAwareCall {ρ : Type} (app : Environ → Except String ρ) (environ : Environ)
    (st : MWState) : (Except String ρ × SpanRecord) × MWState :=
  let site_name := get_site_from_host (some (environ.http_host.getD ""))
  let r := get_middleware_for_site site_name st
  (otelMiddlewareCall r.1 app { environ with otel_site_name := some site_name }, r.2)

/-! ### Interleaved executions of `get_tracer_provider_for_site`

The Python module has no lock around `_tracer_providers`; the membership
check and the later `dict` insertion of one call can interleave with other
threads' calls. Each thread executes the function for one site in three
observable phases: the cache check (a hit finishes the call with the cached
provider), the construction (`get_config` + resource/exporter/provider
assembly, mutating the shared config cache and allocating a fresh provider),
and the dict insertion that publishes the provider before returning it. -/

/-- The control point of one in-flight `get_tracer_provider_for_site` call. -/
inductive TPhase where
  | start : TPhase
  | toInsert : TracerProvider → TPhase
  | done : TracerProvider → TPhase
deriving DecidableEq, Repr

/-- One thread: the site it requests and where its call stands. -/
structure ConcThread where
  site : String
  phase : TPhase
deriving DecidableEq, Repr

/-- Shared module state plus the per-thread control points. -/
structure ConcState where
  shared : OtelState
  threads : List ConcThread
deriving DecidableEq, Repr

/-- Run one atomic phase of thread `i` (no-op on a finished or absent
thread). The phases follow `get_tracer_provider_for_site` exactly: check,
then construct via `mkTracerProvider`, then `dictInsert` and return. -/
def stepThread (cs : ConcState) (i : Nat) : ConcState :=
  match cs.threads[i]? with
  | none => cs
  | some t =>
    match t.phase with
    | TPhase.start =>
      match lookupKey t.site cs.shared.tracer_providers with
      | some tp => { cs with threads := cs.threads.set i { t with phase := TPhase.done tp } }
      | none =>
        let r := mkTracerProvider t.site cs.shared
        { shared := r.2, threads := cs.threads.set i { t with phase := TPhase.toInsert r.1 } }
    | TPhase.toInsert tp =>
      { shared := { cs.shared with
          tracer_providers := dictInsert t.site tp cs.shared.tracer_providers }
        threads := cs.threads.set i { t with phase := TPhase.done tp } }
    | TPhase.done _ => cs

/-- Run a schedule: at each step the named thread advances one phase. -/
def runSched (cs : ConcState) (sched : List Nat) : ConcState :=
  sched.foldl stepThread cs

/-- The provider a finished thread's call returned, if it has finished. -/
def threadResult (cs : ConcState) (i : Nat) : Option TracerProvider :=
  match cs.threads[i]? with
  | some { phase := TPhase.done tp, .. } => some tp
  | _ => none

/-- A concrete fresh environment for concrete executions. -/
def env0 : Env where
  otlp_endpoint := none
  otlp_headers := none
  otel_service_name := none
  otel_service_version := none
  otel_deployment_environment := none
  hostname := none
  uname_nodename := "node1"

/-- The module state right after import, before any request: empty caches,
config not yet resolved. -/
def st0 : OtelState where
  env := env0
  config := none
  headers := none
  envReads := 0
  tracer_providers := []
  nextId := 0

/-- A fresh middleware instance over the fresh module state. -/
def mwSt0 : MWState where
  otel := st0
  wsgi_middlewares := []
  nextMwId := 0

/-! ### Further helper lemmas -/

theorem addHeaderItem_skip (d : List (String × String)) (item : List Char)
    (h : '=' ∉ item) : addHeaderItem d item = d := by
  simp [addHeaderItem, splitFirst_not_mem '=' item h]

theorem foldl_addHeaderItem_skip (items : List (List Char))
    (d : List (String × String)) (h : ∀ item ∈ items, '=' ∉ item) :
    items.foldl addHeaderItem d = d := by
  induction items generalizing d with
  | nil => rfl
  | cons item rest ih =>
    rw [List.foldl_cons, addHeaderItem_skip d item (h item (List.mem_cons_self item rest))]
    exact ih d (fun it hit => h it (List.mem_cons_of_mem item hit))

/-! ### Claim theorems -/

/-- C3: `get_site_from_host` returns the sentinel `"unknown"` when the host
header is absent (`none`) or empty, and otherwise returns exactly the prefix
of the host before the first `':'` (everything from the first `':'` onward
stripped) unchanged; in particular `"site.example.com:8000"` maps to
`"site.example.com"`. -/
theorem get_site_from_host_spec :
    get_site_from_host none = "unknown" ∧
    get_site_from_host (some "") = "unknown" ∧
    (∀ h : String, h ≠ "" →
      get_site_from_host (some h) = (h.data.takeWhile (fun c => c != ':')).asString) ∧
    get_site_from_host (some "site.example.com:8000") = "site.example.com" := by
  refine ⟨rfl, rfl, ?_, by decide⟩
  intro h hne
  simp [get_site_from_host, hne, splitChar, splitChar1_fst]

/-- Witness for C3 at the concrete host `"x:1"`. -/
theorem get_site_from_host_spec_witness :
    ("x:1" : String) ≠ "" ∧
    get_site_from_host (some "x:1") =
      (("x:1" : String).data.takeWhile (fun c => c != ':')).asString :=
  ⟨by decide, get_site_from_host_spec.2.2.1 "x:1" (by decide)⟩

/-- C9: a non-empty host beginning with `':'` (e.g. `":8000"`) yields the
empty string as tenant key, not the sentinel `"unknown"` that is reserved
for absent/empty hosts. -/
theorem colon_leading_host_empty_key :
    get_site_from_host (some ":8000") = "" ∧
    get_site_from_host (some ":8000") ≠ "unknown" ∧
    get_site_from_host (some "") = "unknown" := by
  decide

/-- C5: `parse_headers` splits on commas, silently skips every entry without
an `'='`, and maps each remaining entry's key to its value:
`parse("a=1,b=2") = {"a":"1","b":"2"}`, `parse("bad,noequals") = {}`,
`parse("") = {}`. -/
theorem parse_headers_skips_and_maps :
    (∀ s : String, (∀ item ∈ splitChar ',' s.data, '=' ∉ item) →
      parse_headers s = []) ∧
    parse_headers "a=1,b=2" = [("a", "1"), ("b", "2")] ∧
    parse_headers "bad,noequals" = [] ∧
    parse_headers "" = [] := by
  refine ⟨?_, by decide, by decide, by decide⟩
  intro s h
  by_cases hs : s = ""
  · simp [parse_headers, hs]
  · simp only [parse_headers, if_neg hs]
    exact foldl_addHeaderItem_skip _ [] h

/-- Witness for C5 at the concrete header string `"xx,yy"`. -/
theorem parse_headers_skips_and_maps_witness :
    (∀ item ∈ splitChar ',' ("xx,yy" : String).data, '=' ∉ item) ∧
    parse_headers "xx,yy" = [] :=
  ⟨by decide, parse_headers_skips_and_maps.1 "xx,yy" (by decide)⟩

/-- C10: for an entry containing `'='`, `parse_headers` splits only on the
first `'='` and strips whitespace from both key and value, keeping entries
with an empty key or value: `parse(" a = 1 ") = {"a":"1"}`,
`parse("k=") = {"k":""}`, `parse("k=a=b") = {"k":"a=b"}`. -/
theorem parse_headers_first_split_strip :
    (∀ item : String, item ≠ "" → ',' ∉ item.data → '=' ∈ item.data →
      parse_headers item =
        [((pyStrip (splitFirst '=' item.data).1).asString,
          (pyStrip ((splitFirst '=' item.data).2.getD [])).asString)]) ∧
    parse_headers " a = 1 " = [("a", "1")] ∧
    parse_headers "k=" = [("k", "")] ∧
    parse_headers "k=a=b" = [("k", "a=b")] ∧
    parse_headers "=v" = [("", "v")] := by
  refine ⟨?_, by decide, by decide, by decide, by decide⟩
  intro item hne hc he
  obtain ⟨v, hv⟩ := splitFirst_mem '=' item.data he
  simp [parse_headers, hne, splitChar_not_mem ',' item.data hc, addHeaderItem, hv,
    dictInsert]

/-- Witness for C10 at the concrete entry `" k = a=b "`. -/
theorem parse_headers_first_split_strip_witness :
    (" k = a=b " : String) ≠ "" ∧
    ',' ∉ (" k = a=b " : String).data ∧
    '=' ∈ (" k = a=b " : String).data ∧
    parse_headers " k = a=b " =
      [((pyStrip (splitFirst '=' (" k = a=b " : String).data).1).asString,
        (pyStrip ((splitFirst '=' (" k = a=b " : String).data).2.getD [])).asString)] :=
  ⟨by decide, by decide, by decide,
    parse_headers_first_split_strip.1 " k = a=b " (by decide) (by decide) (by decide)⟩

/-- C6: `get_config` is idempotent: on the first call it reads the
environment exactly once and caches the snapshot; every later call returns
the identical snapshot pair and leaves the state unchanged (so no
configuration source is ever re-read). -/
theorem get_config_idempotent :
    (∀ st : OtelState, st.config = none → st.envReads = 0 →
      (get_config st).1.1 = get_otel_config st.env ∧
      (get_config st).1.2 = parse_headers (get_otel_config st.env).headers ∧
      (get_config st).2.envReads = 1 ∧
      (get_config st).2.config = some (get_config st).1.1 ∧
      (get_config st).2.headers = some (get_config st).1.2) ∧
    (∀ (st : OtelState) (c : Config) (h : List (String × String)),
      st.config = some c → st.headers = some h → get_config st = ((c, h), st)) ∧
    (∀ (st : OtelState) (n : Nat), st.config.isSome →
      (fun s => (get_config s).2)^[n] st = st) := by
  refine ⟨?_, ?_, ?_⟩
  · intro st hc hr
    simp [get_config, hc, hr]
  · intro st c h hc hh
    simp [get_config, hc, hh]
  · intro st n hsome
    have hfix : (get_config st).2 = st := by
      obtain ⟨c, hc⟩ := Option.isSome_iff_exists.mp hsome
      simp [get_config, hc]
    induction n with
    | zero => rfl
    | succ m ih =>
      rw [Function.iterate_succ_apply, hfix, ih]

/-- Witness for C6: from the fresh module state, the first call performs the
single environment read and later calls leave the state fixed. -/
theorem get_config_idempotent_witness :
    st0.config = none ∧ st0.envReads = 0 ∧
    (get_config st0).2.envReads = 1 ∧
    (get_config st0).2.config.isSome ∧
    (fun s => (get_config s).2)^[3] (get_config st0).2 = (get_config st0).2 :=
  ⟨rfl, rfl, (get_config_idempotent.1 st0 rfl rfl).2.2.1,
    by rw [(get_config_idempotent.1 st0 rfl rfl).2.2.2.1]; rfl,
    get_config_idempotent.2.2 (get_config st0).2 3
      (by rw [(get_config_idempotent.1 st0 rfl rfl).2.2.2.1]; rfl)⟩

/-! Helper lemmas about `mkTracerProvider` and single cache calls. -/

theorem mkTracerProvider_providers (site : String) (st : OtelState) :
    (mkTracerProvider site st).2.tracer_providers = st.tracer_providers := by
  simp [mkTracerProvider, get_config_tracer_providers]

theorem mkTracerProvider_id (site : String) (st : OtelState) :
    (mkTracerProvider site st).1.id = st.nextId := by
  simp [mkTracerProvider, get_config_nextId]

theorem mkTracerProvider_nextId (site : String) (st : OtelState) :
    (mkTracerProvider site st).2.nextId = st.nextId + 1 := by
  simp [mkTracerProvider, get_config_nextId]

theorem miss_call_eq (site : String) (st : OtelState)
    (h : lookupKey site st.tracer_providers = none) :
    get_tracer_provider_for_site site st =
      ((mkTracerProvider site st).1,
       { (mkTracerProvider site st).2 with
         tracer_providers :=
           dictInsert site (mkTracerProvider site st).1 st.tracer_providers }) := by
  simp [get_tracer_provider_for_site, h, mkTracerProvider_providers]

theorem call_providers_extend (site : String) (st : OtelState) :
    ∃ added, (get_tracer_provider_for_site site st).2.tracer_providers
      = st.tracer_providers ++ added := by
  cases h : lookupKey site st.tracer_providers with
  | some tp => exact ⟨[], by simp [get_tracer_provider_for_site, h]⟩
  | none =>
    refine ⟨[(site, (mkTracerProvider site st).1)], ?_⟩
    rw [miss_call_eq site st h]
    exact dictInsert_of_lookup_none site _ st.tracer_providers h

theorem call_keys_nodup (site : String) (st : OtelState)
    (h : (st.tracer_providers.map Prod.fst).Nodup) :
    ((get_tracer_provider_for_site site st).2.tracer_providers.map Prod.fst).Nodup := by
  cases hl : lookupKey site st.tracer_providers with
  | some tp => simpa [get_tracer_provider_for_site, hl] using h
  | none =>
    rw [miss_call_eq site st hl]
    have hmem : site ∉ st.tracer_providers.map Prod.fst :=
      (lookupKey_eq_none_iff site st.tracer_providers).mp hl
    simp only [dictInsert_of_lookup_none site _ st.tracer_providers hl]
    simp [List.nodup_append, h, hmem]

/-- C1: the provider cache invariant of `get_tracer_provider_for_site`: a
call with a cached site returns the existing handle and changes nothing; a
call with an unseen site constructs exactly one new handle (fresh identity),
appends it to the cache, and returns it under its key; and across any
sequence of calls the cache only ever grows by appending (entries are never
removed or replaced), keeping at most one handle per distinct site key. -/
theorem provider_cache_get_or_create :
    (∀ (st : OtelState) (site : String) (tp : TracerProvider),
      lookupKey site st.tracer_providers = some tp →
      get_tracer_provider_for_site site st = (tp, st)) ∧
    (∀ (st : OtelState) (site : String),
      lookupKey site st.tracer_providers = none →
      (get_tracer_provider_for_site site st).1.id = st.nextId ∧
      (get_tracer_provider_for_site site st).2.nextId = st.nextId + 1 ∧
      (get_tracer_provider_for_site site st).2.tracer_providers
        = st.tracer_providers ++ [(site, (get_tracer_provider_for_site site st).1)] ∧
      lookupKey site (get_tracer_provider_for_site site st).2.tracer_providers
        = some (get_tracer_provider_for_site site st).1) ∧
    (∀ (sites : List String) (st : OtelState),
      (∃ added, (runSites sites st).tracer_providers = st.tracer_providers ++ added) ∧
      ((st.tracer_providers.map Prod.fst).Nodup →
        ((runSites sites st).tracer_providers.map Prod.fst).Nodup)) := by
  refine ⟨?_, ?_, ?_⟩
  · intro st site tp h
    simp [get_tracer_provider_for_site, h]
  · intro st site h
    have hfst : (get_tracer_provider_for_site site st).1 = (mkTracerProvider site st).1 := by
      rw [miss_call_eq site st h]
    refine ⟨by rw [hfst]; exact mkTracerProvider_id site st, ?_, ?_, ?_⟩
    · rw [miss_call_eq site st h]
      exact mkTracerProvider_nextId site st
    · rw [hfst, miss_call_eq site st h]
      exact dictInsert_of_lookup_none site _ st.tracer_providers h
    · rw [hfst, miss_call_eq site st h]
      exact lookupKey_dictInsert_self site _ st.tracer_providers
  · intro sites
    induction sites with
    | nil => exact fun st => ⟨⟨[], by simp [runSites]⟩, fun h => h⟩
    | cons site rest ih =>
      intro st
      have hstep : runSites (site :: rest) st
          = runSites rest (get_tracer_provider_for_site site st).2 := rfl
      constructor
      · obtain ⟨a1, ha1⟩ := call_providers_extend site st
        obtain ⟨a2, ha2⟩ := (ih (get_tracer_provider_for_site site st).2).1
        exact ⟨a1 ++ a2, by rw [hstep, ha2, ha1, List.append_assoc]⟩
      · intro hnd
        rw [hstep]
        exact (ih (get_tracer_provider_for_site site st).2).2 (call_keys_nodup site st hnd)

/-- Witness for C1: a hit, a miss and a three-call sequence from concrete
states. -/
theorem provider_cache_get_or_create_witness :
    lookupKey "a" st0.tracer_providers = none ∧
    (get_tracer_provider_for_site "a" st0).1.id = st0.nextId ∧
    get_tracer_provider_for_site "a" (get_tracer_provider_for_site "a" st0).2
      = ((get_tracer_provider_for_site "a" st0).1,
         (get_tracer_provider_for_site "a" st0).2) ∧
    ((runSites ["a", "b", "a"] st0).tracer_providers.map Prod.fst).Nodup :=
  ⟨rfl, (provider_cache_get_or_create.2.1 st0 "a" rfl).1,
    provider_cache_get_or_create.1 _ "a" _ (by decide),
    (provider_cache_get_or_create.2.2 ["a", "b", "a"] st0).2 (by decide)⟩

/-- The race scenario: two threads request the same previously-unseen site
`"t"` over the fresh module state. -/
def raceInit : ConcState where
  shared := st0
  threads := [{ site := "t", phase := TPhase.start },
              { site := "t", phase := TPhase.start }]

/-- C2 divergence: with the interleaving `[0, 1, 0, 1]` — both threads pass
the membership check before either inserts — the unsynchronized
check-then-create of `get_tracer_provider_for_site` constructs two provider
pipelines for the single key `"t"` (two fresh allocations) and the two
callers end with distinct handles, while a non-overlapping schedule
`[0, 0, 1, 1]` constructs exactly one. -/
theorem race_duplicate_construction :
    (runSched raceInit [0, 1, 0, 1]).shared.nextId = 2 ∧
    threadResult (runSched raceInit [0, 1, 0, 1]) 0
      ≠ threadResult (runSched raceInit [0, 1, 0, 1]) 1 ∧
    (threadResult (runSched raceInit [0, 1, 0, 1]) 0).isSome = true ∧
    (threadResult (runSched raceInit [0, 1, 0, 1]) 1).isSome = true ∧
    (runSched raceInit [0, 0, 1, 1]).shared.nextId = 1 := by
  decide

/-! Helper lemmas for the resource-label comparison between two sites. -/

theorem mkTracerProvider_snd (site : String) (st : OtelState) :
    (mkTracerProvider site st).2 = { (get_config st).2 with nextId := st.nextId + 1 } := by
  simp [mkTracerProvider, get_config_nextId]

theorem mkTracerProvider_resource (site : String) (st : OtelState) :
    (mkTracerProvider site st).1.resource
      = siteResource site (get_config st).1.1 st.env := by
  simp [mkTracerProvider, get_config_env]

theorem get_config_update (st : OtelState) (tps : List (String × TracerProvider))
    (n : Nat) :
    (get_config { st with tracer_providers := tps, nextId := n }).1
      = (get_config st).1 ∧
    (get_config { st with tracer_providers := tps, nextId := n }).2.env = st.env := by
  cases h : st.config <;> simp [get_config, h]

theorem miss_call_snd (site : String) (st : OtelState)
    (h : lookupKey site st.tracer_providers = none) :
    (get_tracer_provider_for_site site st).2
      = { (get_config st).2 with
          tracer_providers :=
            dictInsert site (mkTracerProvider site st).1 st.tracer_providers
          nextId := st.nextId + 1 } := by
  rw [miss_call_eq site st h, mkTracerProvider_snd]

/-- C7: two cache misses for different site keys construct distinct provider
handles whose resource labels agree on service version, deployment
environment, host name and service type, and differ exactly in the
tenant-key-bearing labels (`service.name` and `frappe.site`, each equal to
its own site key). -/
theorem distinct_sites_distinct_handles :
    ∀ (st : OtelState) (k1 k2 : String), k1 ≠ k2 →
    lookupKey k1 st.tracer_providers = none →
    lookupKey k2 st.tracer_providers = none →
    (get_tracer_provider_for_site k1 st).1
      ≠ (get_tracer_provider_for_site k2 (get_tracer_provider_for_site k1 st).2).1 ∧
    (get_tracer_provider_for_site k1 st).1.resource.service_name = k1 ∧
    (get_tracer_provider_for_site k1 st).1.resource.frappe_site = k1 ∧
    (get_tracer_provider_for_site k2 (get_tracer_provider_for_site k1 st).2).1.resource.service_name = k2 ∧
    (get_tracer_provider_for_site k2 (get_tracer_provider_for_site k1 st).2).1.resource.frappe_site = k2 ∧
    (get_tracer_provider_for_site k2 (get_tracer_provider_for_site k1 st).2).1.resource.service_version
      = (get_tracer_provider_for_site k1 st).1.resource.service_version ∧
    (get_tracer_provider_for_site k2 (get_tracer_provider_for_site k1 st).2).1.resource.deployment_environment
      = (get_tracer_provider_for_site k1 st).1.resource.deployment_environment ∧
    (get_tracer_provider_for_site k2 (get_tracer_provider_for_site k1 st).2).1.resource.host_name
      = (get_tracer_provider_for_site k1 st).1.resource.host_name ∧
    (get_tracer_provider_for_site k2 (get_tracer_provider_for_site k1 st).2).1.resource.service_type
      = (get_tracer_provider_for_site k1 st).1.resource.service_type := by
  intro st k1 k2 hne h1 h2
  have h2b : lookupKey k2 (get_tracer_provider_for_site k1 st).2.tracer_providers = none := by
    rw [miss_call_snd k1 st h1]
    show lookupKey k2 (dictInsert k1 _ st.tracer_providers) = none
    rw [lookupKey_dictInsert_ne k1 k2 _ _ hne]
    exact h2
  have hst1 : (get_tracer_provider_for_site k1 st).2
      = { (get_config st).2 with
          tracer_providers :=
            dictInsert k1 (mkTracerProvider k1 st).1 st.tracer_providers
          nextId := st.nextId + 1 } := miss_call_snd k1 st h1
  have hid1 : (get_tracer_provider_for_site k1 st).1.id = st.nextId := by
    rw [miss_call_eq k1 st h1]; exact mkTracerProvider_id k1 st
  have hid2 : (get_tracer_provider_for_site k2 (get_tracer_provider_for_site k1 st).2).1.id
      = st.nextId + 1 := by
    rw [miss_call_eq k2 _ h2b, mkTracerProvider_id, hst1]
  have hcfg1 : (get_config (get_tracer_provider_for_site k1 st).2).1 = (get_config st).1 := by
    rw [hst1, (get_config_update (get_config st).2 _ _).1]
    exact congrArg Prod.fst (get_config_stable st)
  have henv1 : (get_tracer_provider_for_site k1 st).2.env = st.env := by
    rw [hst1]
    show (get_config st).2.env = st.env
    exact get_config_env st
  have hr1 : (get_tracer_provider_for_site k1 st).1.resource
      = siteResource k1 (get_config st).1.1 st.env := by
    rw [miss_call_eq k1 st h1]; exact mkTracerProvider_resource k1 st
  have hr2 : (get_tracer_provider_for_site k2 (get_tracer_provider_for_site k1 st).2).1.resource
      = siteResource k2 (get_config st).1.1 st.env := by
    rw [miss_call_eq k2 _ h2b, mkTracerProvider_resource, hcfg1, henv1]
  refine ⟨?_, ?_, ?_, ?_, ?_, ?_, ?_, ?_, ?_⟩
  · intro heq
    have : (get_tracer_provider_for_site k1 st).1.id
        = (get_tracer_provider_for_site k2 (get_tracer_provider_for_site k1 st).2).1.id :=
      congrArg TracerProvider.id heq
    rw [hid1, hid2] at this
    omega
  · rw [hr1]; rfl
  · rw [hr1]; rfl
  · rw [hr2]; rfl
  · rw [hr2]; rfl
  · rw [hr1, hr2]; rfl
  · rw [hr1, hr2]; rfl
  · rw [hr1, hr2]; rfl
  · rw [hr1, hr2]; rfl

/-- Witness for C7 at the concrete sites `"a"` and `"b"` over the fresh
module state. -/
theorem distinct_sites_distinct_handles_witness :
    ("a" : String) ≠ "b" ∧
    lookupKey "a" st0.tracer_providers = none ∧
    lookupKey "b" st0.tracer_providers = none ∧
    ((get_tracer_provider_for_site "a" st0).1
      ≠ (get_tracer_provider_for_site "b" (get_tracer_provider_for_site "a" st0).2).1 ∧
     (get_tracer_provider_for_site "a" st0).1.resource.service_name = "a" ∧
     (get_tracer_provider_for_site "a" st0).1.resource.frappe_site = "a" ∧
     (get_tracer_provider_for_site "b" (get_tracer_provider_for_site "a" st0).2).1.resource.service_name = "b" ∧
     (get_tracer_provider_for_site "b" (get_tracer_provider_for_site "a" st0).2).1.resource.frappe_site = "b" ∧
     (get_tracer_provider_for_site "b" (get_tracer_provider_for_site "a" st0).2).1.resource.service_version
       = (get_tracer_provider_for_site "a" st0).1.resource.service_version ∧
     (get_tracer_provider_for_site "b" (get_tracer_provider_for_site "a" st0).2).1.resource.deployment_environment
       = (get_tracer_provider_for_site "a" st0).1.resource.deployment_environment ∧
     (get_tracer_provider_for_site "b" (get_tracer_provider_for_site "a" st0).2).1.resource.host_name
       = (get_tracer_provider_for_site "a" st0).1.resource.host_name ∧
     (get_tracer_provider_for_site "b" (get_tracer_provider_for_site "a" st0).2).1.resource.service_type
       = (get_tracer_provider_for_site "a" st0).1.resource.service_type) :=
  ⟨by decide, rfl, rfl, distinct_sites_distinct_handles st0 "a" "b" (by decide) rfl rfl⟩

/-! Helper lemmas about the dispatch wrapper. -/

theorem otelMiddlewareCall_provider {ρ : Type} (mw : WsgiMW)
    (app : Environ → Except String ρ) (environ : Environ) :
    (otelMiddlewareCall mw app environ).2.provider = mw.tracer_provider := by
  cases h : app environ <;> simp [otelMiddlewareCall, h]

theorem siteAwareCall_hit {ρ : Type} (app : Environ → Except String ρ)
    (environ : Environ) (st : MWState) (site : String) (mw : WsgiMW)
    (hsite : get_site_from_host (some (environ.http_host.getD "")) = site)
    (hlk : lookupKey site st.wsgi_middlewares = some mw) :
    siteAwareCall app environ st
      = (otelMiddlewareCall mw app { environ with otel_site_name := some site }, st) := by
  simp only [siteAwareCall, hsite]
  simp [get_middleware_for_site, hlk]

theorem siteAwareCall_miss {ρ : Type} (app : Environ → Except String ρ)
    (environ : Environ) (st : MWState) (site : String)
    (hsite : get_site_from_host (some (environ.http_host.getD "")) = site)
    (hlk : lookupKey site st.wsgi_middlewares = none) :
    siteAwareCall app environ st
      = (otelMiddlewareCall
          { mwId := st.nextMwId
            tracer_provider := (get_tracer_provider_for_site site st.otel).1 }
          app { environ with otel_site_name := some site },
         { otel := (get_tracer_provider_for_site site st.otel).2
           wsgi_middlewares :=
             dictInsert site
               { mwId := st.nextMwId
                 tracer_provider := (get_tracer_provider_for_site site st.otel).1 }
               st.wsgi_middlewares
           nextMwId := st.nextMwId + 1 }) := by
  simp only [siteAwareCall, hsite]
  simp [get_middleware_for_site, hlk]

/-- C4: a request with host `"tenantA.example.com:443"` followed by one with
host `"tenantA.example.com"` resolve to the same tenant key
`"tenantA.example.com"`; the first constructs that site's pipeline handle
(when previously unseen) and the second reuses exactly that handle, changing
no state. -/
theorem port_stripping_reuse :
    ∀ {ρ : Type} (app : Environ → Except String ρ) (st : MWState) (e1 e2 : Environ),
    e1.http_host = some "tenantA.example.com:443" →
    e2.http_host = some "tenantA.example.com" →
    lookupKey "tenantA.example.com" st.wsgi_middlewares = none →
    lookupKey "tenantA.example.com" st.otel.tracer_providers = none →
    (siteAwareCall app e1 st).1.2.provider.resource.frappe_site = "tenantA.example.com" ∧
    (siteAwareCall app e1 st).1.2.provider.id = st.otel.nextId ∧
    (siteAwareCall app e2 (siteAwareCall app e1 st).2).1.2.provider
      = (siteAwareCall app e1 st).1.2.provider ∧
    (siteAwareCall app e2 (siteAwareCall app e1 st).2).2 = (siteAwareCall app e1 st).2 := by
  intro ρ app st e1 e2 h1 h2 hmw htr
  have hsite1 : get_site_from_host (some (e1.http_host.getD "")) = "tenantA.example.com" := by
    rw [h1]; decide
  have hsite2 : get_site_from_host (some (e2.http_host.getD "")) = "tenantA.example.com" := by
    rw [h2]; decide
  have hcall1 := siteAwareCall_miss app e1 st "tenantA.example.com" hsite1 hmw
  have hprov1 : (siteAwareCall app e1 st).1.2.provider
      = (get_tracer_provider_for_site "tenantA.example.com" st.otel).1 := by
    rw [hcall1]
    exact otelMiddlewareCall_provider _ app _
  have hlk2 : lookupKey "tenantA.example.com" ((siteAwareCall app e1 st).2).wsgi_middlewares
      = some { mwId := st.nextMwId
               tracer_provider := (get_tracer_provider_for_site "tenantA.example.com" st.otel).1 } := by
    rw [hcall1]
    exact lookupKey_dictInsert_self _ _ _
  have hcall2 := siteAwareCall_hit app e2 (siteAwareCall app e1 st).2
    "tenantA.example.com" _ hsite2 hlk2
  refine ⟨?_, ?_, ?_, ?_⟩
  · rw [hprov1, miss_call_eq "tenantA.example.com" st.otel htr]
    rfl
  · rw [hprov1, miss_call_eq "tenantA.example.com" st.otel htr]
    exact mkTracerProvider_id _ _
  · rw [hcall2, hprov1]
    exact otelMiddlewareCall_provider _ app _
  · rw [hcall2]

/-- Witness for C4: concrete request pair over the fresh middleware state,
with an app that always succeeds. -/
theorem port_stripping_reuse_witness :
    ({ http_host := some "tenantA.example.com:443", otel_site_name := none } : Environ).http_host
      = some "tenantA.example.com:443" ∧
    ({ http_host := some "tenantA.example.com", otel_site_name := none } : Environ).http_host
      = some "tenantA.example.com" ∧
    lookupKey "tenantA.example.com" mwSt0.wsgi_middlewares = none ∧
    lookupKey "tenantA.example.com" mwSt0.otel.tracer_providers = none ∧
    ((siteAwareCall (fun _ => Except.ok 0)
        { http_host := some "tenantA.example.com:443", otel_site_name := none }
        mwSt0).1.2.provider.resource.frappe_site = "tenantA.example.com" ∧
     (siteAwareCall (fun _ => Except.ok 0)
        { http_host := some "tenantA.example.com:443", otel_site_name := none }
        mwSt0).1.2.provider.id = mwSt0.otel.nextId ∧
     (siteAwareCall (fun _ => Except.ok 0)
        { http_host := some "tenantA.example.com", otel_site_name := none }
        (siteAwareCall (fun _ => Except.ok 0)
          { http_host := some "tenantA.example.com:443", otel_site_name := none }
          mwSt0).2).1.2.provider
       = (siteAwareCall (fun _ => Except.ok 0)
          { http_host := some "tenantA.example.com:443", otel_site_name := none }
          mwSt0).1.2.provider ∧
     (siteAwareCall (fun _ => Except.ok 0)
        { http_host := some "tenantA.example.com", otel_site_name := none }
        (siteAwareCall (fun _ => Except.ok 0)
          { http_host := some "tenantA.example.com:443", otel_site_name := none }
          mwSt0).2).2
       = (siteAwareCall (fun _ => Except.ok 0)
          { http_host := some "tenantA.example.com:443", otel_site_name := none }
          mwSt0).2) :=
  ⟨rfl, rfl, rfl, rfl,
    port_stripping_reuse (ρ := Nat) (fun _ => Except.ok 0) mwSt0
      { http_host := some "tenantA.example.com:443", otel_site_name := none }
      { http_host := some "tenantA.example.com", otel_site_name := none }
      rfl rfl rfl rfl⟩

/-- C8: when the wrapped application handler fails, the dispatch wrapper
propagates exactly that failure to the caller — it never swallows, replaces
or alters it — and the request span records the failure. -/
theorem handler_error_propagates :
    ∀ {ρ : Type} (app : Environ → Except String ρ) (environ : Environ)
      (st : MWState) (e : String),
    app { environ with
          otel_site_name := some (get_site_from_host (some (environ.http_host.getD ""))) }
      = Except.error e →
    (siteAwareCall app environ st).1.1 = Except.error e ∧
    (siteAwareCall app environ st).1.2.errored = some e := by
  intro ρ app environ st e happ
  constructor <;> simp [siteAwareCall, otelMiddlewareCall, happ]

/-- Witness for C8: a handler that always raises `"boom"` over the fresh
middleware state. -/
theorem handler_error_propagates_witness :
    ((fun _ => Except.error "boom" : Environ → Except String Nat)
      { http_host := none
        otel_site_name := some (get_site_from_host (some ((none : Option String).getD ""))) }
      = Except.error "boom") ∧
    (siteAwareCall (fun _ => Except.error "boom" : Environ → Except String Nat)
      { http_host := none, otel_site_name := none } mwSt0).1.1 = Except.error "boom" ∧
    (siteAwareCall (fun _ => Except.error "boom" : Environ → Except String Nat)
      { http_host := none, otel_site_name := none } mwSt0).1.2.errored = some "boom" :=
  ⟨rfl,
    handler_error_propagates (fun _ => Except.error "boom")
      { http_host := none, otel_site_name := none } mwSt0 "boom" rfl⟩

end SimbotixOtel
